import Mathlib

/-!
Verification of the hybrid geocoding pipeline
(scripts/02_geocode_hybrid.py and scripts/03_compute_distances.py).

Modelling conventions (shallow embedding):
* Python floats are modelled as exact numbers: database/JSON decimal values
  as `ℚ`, trigonometric computation (`haversine_distance`) over `ℝ`.
* Python `None` becomes `Option.none`; a Python value that may be `None`
  becomes an `Option`.  Python *truthiness* tests (`if x:` on a string,
  float or `None`) are modelled by explicit truthiness predicates
  (`none` false, empty string false, numeric `0` false).
* The two HTTP providers are modelled as oracle functions
  `String → Option ApiPlace` handed to the geocoder: `none` stands for
  "no results, transport failure or parse error" (the code's
  `try/except` collapses all of these to the same outcome).
* The SQLite cache table (primary key `address_query`) is modelled as an
  association list; `INSERT OR REPLACE` deletes the row with the same key
  and appends the new one.
* Dictionary lookups `d.get(k, default)` become `Option.getD`; note that a
  key stored with value `None` yields `None` (not the default), which the
  model mirrors by keeping such fields as `Option`.
-/

/-- Truthiness of an optional string, as in Python: `None` and `""` are
falsy, every other string is truthy. -/
def strTruthy : Option String → Bool
  | none => false
  | some s => !s.toList.isEmpty

/-- Truthiness of an optional numeric value, as in Python: `None` and `0.0`
are falsy. -/
def qTruthy : Option ℚ → Bool
  | none => false
  | some x => x != 0

/-- `matchesAt needle hay`: `needle` occurs at the very start of `hay`
(Python `str.startswith` on character lists). -/
def matchesAt : List Char → List Char → Bool
  | [], _ => true
  | _ :: _, [] => false
  | a :: as, b :: bs => a == b && matchesAt as bs

/-- `hasSub needle hay`: `needle` occurs contiguously somewhere in `hay`. -/
def hasSub (needle : List Char) : List Char → Bool
  | [] => needle.isEmpty
  | c :: rest => matchesAt needle (c :: rest) || hasSub needle rest

/-- Python's `needle in hay` substring test. -/
def strIn (needle hay : String) : Bool :=
  hasSub needle.toList hay.toList

/-- Python `str.upper()` restricted to the alphabets occurring in the data:
ASCII letters and the Cyrillic range `а`..`я` (U+0430..U+044F); all other
characters are left unchanged. -/
def upperChar (c : Char) : Char :=
  if 0x430 ≤ c.toNat ∧ c.toNat ≤ 0x44F then Char.ofNat (c.toNat - 0x20)
  else c.toUpper

/-- Python `str.upper()` over a whole string (see `upperChar`). -/
def upperBG (s : String) : String :=
  String.mk (s.toList.map upperChar)

/-- Python `int(q)`: truncation toward zero. -/
def truncQ (q : ℚ) : ℤ :=
  if 0 ≤ q then ⌊q⌋ else ⌈q⌉

/-- Python `str.lower()` (the tags it is applied to are ASCII). -/
def lowerStr (s : String) : String :=
  String.mk (s.toList.map Char.toLower)

/-- Python `str.strip()`: drop whitespace from both ends. -/
def pyTrim (s : String) : String :=
  ((s.toList.dropWhile Char.isWhitespace).reverse.dropWhile
    Char.isWhitespace).reverse.asString

/-- Left-to-right non-overlapping replacement on character lists, with a
structural fuel argument (the fuel is always initialised to more than the
list length, so it never runs out). -/
def replaceFuel (old new : List Char) : ℕ → List Char → List Char
  | 0, l => l
  | _ + 1, [] => []
  | fuel + 1, c :: rest =>
    if old ≠ [] ∧ matchesAt old (c :: rest) = true then
      new ++ replaceFuel old new fuel ((c :: rest).drop old.length)
    else c :: replaceFuel old new fuel rest

/-- Python `s.replace(old, new)`: all non-overlapping occurrences,
left to right. -/
def pyReplace (s old new : String) : String :=
  (replaceFuel old.toList new.toList (s.toList.length + 1) s.toList).asString

/-- Split a character list at whitespace characters (keeping empty
pieces, which the caller filters out). -/
def splitWS : List Char → List (List Char)
  | [] => [[]]
  | c :: rest =>
    let r := splitWS rest
    if c.isWhitespace then [] :: r
    else
      match r with
      | [] => [[c]]
      | w :: ws => (c :: w) :: ws

/-- Python `s.split()` with no argument: split on whitespace runs,
dropping empty pieces. -/
def pyWords (s : String) : List String :=
  ((splitWS s.toList).filter (fun w => !w.isEmpty)).map List.asString

/-- Count occurrences of a character in a string
(Python `str.count` for a single-character needle). -/
def countChar (c : Char) (s : String) : ℕ :=
  (s.toList.filter (fun d => d == c)).length

/-- The `address` object of a raw Nominatim place (`addressdetails=1`).
Only the keys inspected by the scripts are modelled; an absent key is
`none`.  An absent or empty `address` dict is modelled as the enclosing
`Option NomAddr` being `none`. -/
structure NomAddr where
  village : Option String := none
  town : Option String := none
  city : Option String := none
  locality : Option String := none
  municipality : Option String := none
  county : Option String := none
  state : Option String := none
  state_district : Option String := none
  region : Option String := none
  house_number : Option String := none
  building : Option String := none
  street : Option String := none
  road : Option String := none
  neighbourhood : Option String := none
  suburb : Option String := none
  quarter : Option String := none
deriving DecidableEq, Repr

/-- A raw Nominatim API place (first element of the JSON result list).
`lat`/`lon` hold the already-parsed decimal value of the stringified
coordinates. -/
structure ApiPlace where
  lat : Option ℚ := none
  lon : Option ℚ := none
  display_name : Option String := none
  osm_type : Option String := none
  osm_id : Option ℤ := none
  importance : Option ℚ := none
  class_ : Option String := none
  type_ : Option String := none
  address : Option NomAddr := none
deriving DecidableEq, Repr

/-- The result dict produced by `NominatimGeocoder` for one lookup
(keys `success, lat, lon, display_name, osm_type, osm_id, importance,
class, type, confidence, raw_json, query_used`). -/
structure NomResult where
  success : Bool
  lat : Option ℚ := none
  lon : Option ℚ := none
  display_name : Option String := none
  osm_type : Option String := none
  osm_id : Option ℤ := none
  importance : Option ℚ := none
  class_ : Option String := none
  type_ : Option String := none
  confidence : ℤ := 0
  raw : Option ApiPlace := none
  query_used : Option String := none
deriving DecidableEq, Repr

/-- `GeocoderCache.get`: look up the row whose primary key equals the
query (source: `SELECT response_json FROM cache WHERE address_query = ?`). -/
def cacheGet {V : Type} (entries : List (String × V)) (k : String) : Option V :=
  match entries.find? (fun e => e.1 == k) with
  | some e => some e.2
  | none => none

/-- `GeocoderCache.set`: `INSERT OR REPLACE` on the primary key — the row
with the same key (if any) is deleted and the new row inserted. -/
def cacheSet {V : Type} (entries : List (String × V)) (k : String) (v : V) :
    List (String × V) :=
  entries.filter (fun e => e.1 != k) ++ [(k, v)]

/-- The escalation decision of `geocode_records` (02, lines 822–828):
`need_google` is set when the Nominatim result failed outright, or when it
succeeded with confidence strictly below the configured minimum. -/
def need_google (nom_result : NomResult) (min_confidence : ℤ) : Bool :=
  if !nom_result.success then true
  else if nom_result.confidence < min_confidence then true
  else false

/-- `GoogleGeocoder._calculate_confidence`: a fixed table keyed on the
`location_type` of the result geometry, defaulting to `APPROXIMATE` when
the key is absent and to `40` for an unknown tier. -/
def GoogleGeocoder.calculate_confidence (location_type : Option String) : ℤ :=
  let lt := location_type.getD "APPROXIMATE"
  if lt == "ROOFTOP" then 95
  else if lt == "RANGE_INTERPOLATED" then 80
  else if lt == "GEOMETRIC_CENTER" then 60
  else if lt == "APPROXIMATE" then 40
  else 40

/-- `NominatimGeocoder._calculate_confidence` (02, lines 467–550).
Starts from a base score of 40 and adds/subtracts the bounded
contributions of the five factors, then clamps to [0, 100].
The Python parameter `address_query` is unused in the body and omitted.
`result.get('class', '')` etc. become `Option.getD _ ""`. -/
def NominatimGeocoder.calculate_confidence (result : ApiPlace) : ℤ :=
  let score : ℤ := 40
  -- Factor 1: result type specificity
  let osm_class := lowerStr (result.class_.getD "")
  let osm_type := lowerStr (result.type_.getD "")
  let score :=
    if osm_class == "building" || osm_type == "building" then score + 20
    else if osm_type ∈ (["house", "yes", "residential", "commercial",
        "apartments"] : List String) then score + 15
    else if osm_class == "highway" then score + 15
    else if osm_type ∈ (["residential", "pedestrian", "service",
        "unclassified"] : List String) then score + 10
    else if osm_class ∈ (["amenity", "tourism", "leisure", "shop",
        "office"] : List String) then score + 12
    else if osm_class == "place" then
      (if osm_type ∈ (["village", "town", "city"] : List String) then score + 5
       else if osm_type ∈ (["neighbourhood", "suburb", "quarter"] : List String)
         then score + 8
       else score)
    else if osm_class == "boundary" || osm_type == "administrative" then
      score - 15
    else score
  -- Factor 2: address component completeness (skipped when the address
  -- dict is absent or empty)
  let score :=
    match result.address with
    | none => score
    | some ad =>
      let score :=
        if strTruthy ad.house_number || strTruthy ad.building then score + 15
        else score
      let score :=
        if strTruthy ad.street || strTruthy ad.road then score + 8 else score
      if strTruthy ad.neighbourhood || strTruthy ad.suburb ||
          strTruthy ad.quarter then score + 5
      else score
  -- Factor 3: OSM importance (`int(importance * 15)`, guarded by truthiness)
  let importance := result.importance.getD 0
  let score := if importance != 0 then score + truncQ (importance * 15) else score
  -- Factor 4: OSM geometry type
  let result_osm_type := lowerStr (result.osm_type.getD "")
  let score :=
    if result_osm_type == "node" then score + 8
    else if result_osm_type == "way" then score + 5
    else if result_osm_type == "relation" then score - 5
    else score
  -- Factor 5: display name specificity by comma count
  let comma_count := countChar ',' (result.display_name.getD "")
  let score :=
    if comma_count ≥ 5 then score + 8
    else if comma_count ≥ 4 then score + 5
    else if comma_count ≥ 3 then score + 3
    else score
  -- Clamp to 0–100
  max 0 (min 100 score)

/-- `_nominatim_request_freeform` (02, lines 422–465), with the HTTP call
abstracted into the oracle `api`.  `api q = none` covers an empty result
list, a transport error or a parse error (all collapsed by the code's
`try/except`).  A fallback query (one differing from the literal full
address) has its confidence penalised by 20 points, floored at 30. -/
def nominatim_request_freeform (api : String → Option ApiPlace)
    (query_attempt address_query : String) : Option NomResult :=
  match api query_attempt with
  | none => none
  | some result =>
    let confidence := NominatimGeocoder.calculate_confidence result
    let confidence :=
      if query_attempt ≠ address_query then max (confidence - 20) 30
      else confidence
    some {
      success := true
      lat := some (result.lat.getD 0)
      lon := some (result.lon.getD 0)
      display_name := result.display_name
      osm_type := result.osm_type
      osm_id := result.osm_id
      importance := result.importance
      class_ := result.class_
      type_ := result.type_
      confidence := confidence
      raw := some result
      query_used := some query_attempt }

/-- `_nominatim_request_structured` (02, lines 374–420): structured
search by (city, county, country), abstracted over the oracle
`apiStructured`.  No fallback penalty is applied. -/
def nominatim_request_structured (apiStructured : String → String → String → Option ApiPlace)
    (city county country : String) : Option NomResult :=
  match apiStructured city county country with
  | none => none
  | some result =>
    some {
      success := true
      lat := some (result.lat.getD 0)
      lon := some (result.lon.getD 0)
      display_name := result.display_name
      osm_type := result.osm_type
      osm_id := result.osm_id
      importance := result.importance
      class_ := result.class_
      type_ := result.type_
      confidence := NominatimGeocoder.calculate_confidence result
      raw := some result
      query_used := some ("structured:" ++ city ++ "," ++ county ++ "," ++ country) }

/-- `extract_nominatim_address_parts` (02, lines 29–75): pull
(settlement, municipality, region) out of a raw place's address object,
trying the common keys for each level; `or` chains follow Python
truthiness, and a whitespace-only value strips to `none`. -/
def extract_nominatim_address_parts (raw : Option ApiPlace) :
    Option String × Option String × Option String :=
  match raw with
  | none => (none, none, none)
  | some place =>
    match place.address with
    | none => (none, none, none)
    | some address =>
      let pick : List (Option String) → Option String := fun cands =>
        match cands.find? strTruthy with
        | some v => v
        | none => none
      let settlement :=
        match pick [address.village, address.town, address.city,
            address.locality] with
        | some s =>
          if (pyTrim s).toList.isEmpty then none else some (pyTrim s)
        | none => none
      let municipality :=
        match pick [address.municipality, address.county] with
        | some s =>
          if (pyTrim s).toList.isEmpty then none else some (pyTrim s)
        | none => none
      let region :=
        match pick [address.state, address.state_district, address.region] with
        | some s =>
          if (pyTrim s).toList.isEmpty then none else some (pyTrim s)
        | none => none
      (settlement, municipality, region)

/-- `normalize_municipality_for_nominatim` (02, lines 78–106): strip a
leading "община " (case-insensitively), skip leading settlement-type
tokens, and keep the first remaining word (rejected when absent or longer
than 80 characters). -/
def normalize_municipality_for_nominatim (municipality : Option String) :
    Option String :=
  match municipality with
  | none => none
  | some m =>
    let s := pyTrim m
    if s.toList.isEmpty then none
    else
      let s :=
        if matchesAt (upperBG "ОБЩИНА ").toList (upperBG s).toList then
          pyTrim (s.toList.drop ("ОБЩИНА ".toList.length)).asString
        else s
      if s.toList.isEmpty then none
      else
        let words := pyWords s
        let skip : List String := ["СЕЛО", "ГРАД", "С.", "ГР."]
        let words := words.dropWhile (fun w => pyTrim (upperBG w) ∈ skip)
        match words with
        | [] => none
        | first_word :: _ =>
          if first_word.toList.isEmpty = true ∨ 80 < first_word.toList.length then
            none
          else some (pyTrim first_word)

/-- The subset of `config['nominatim']` consulted by the geocoder: the
big-city list and the `big_city_strategy` flags (each flag models the
corresponding `strategy_config.get(_, True)` lookup). -/
structure NomConfig where
  big_cities : List String := []
  use_freeform_first : Bool := true
  fallback_to_structured : Bool := true
  reject_administrative_only : Bool := true
  prefer_building_results : Bool := true
  validate_settlement_match : Bool := true
deriving DecidableEq, Repr

/-- `NominatimGeocoder._is_big_city` (02, lines 173–187). -/
def NominatimGeocoder.is_big_city (cfg : NomConfig) (settlement : Option String) :
    Bool :=
  match settlement with
  | none => false
  | some s => if s.toList.isEmpty then false else pyTrim s ∈ cfg.big_cities

/-- `NominatimGeocoder._validate_big_city_result` (02, lines 189–252).
Check 1 rejects administrative boundaries outright; check 2 requires a
specific classification or confidence ≥ 70; check 3 compares the
provider's own settlement against the expected one (skipped when the
provider reports no settlement). -/
def NominatimGeocoder.validate_big_city_result (cfg : NomConfig)
    (result_data : Option NomResult) (expected_settlement : String) : Bool :=
  match result_data with
  | none => false
  | some rd =>
    if !rd.success then false
    else
      -- Check 1: reject administrative-only results
      if cfg.reject_administrative_only &&
          (rd.type_ == some "administrative" || rd.class_ == some "boundary") then
        false
      else
      -- Check 2: prefer building/highway results
      let specific_fails :=
        cfg.prefer_building_results &&
          (let preferred_classes : List String :=
            ["building", "highway", "amenity", "shop", "office", "tourism"]
          let preferred_types : List String :=
            ["building", "residential", "house", "commercial", "yes"]
          let is_specific :=
            (match rd.class_ with
             | some c => c ∈ preferred_classes
             | none => false) ||
            (match rd.type_ with
             | some t => t ∈ preferred_types
             | none => false)
          !is_specific && rd.confidence < 70)
      if specific_fails then false
      else
      -- Check 3: validate settlement match
      let settlement_fails :=
        cfg.validate_settlement_match &&
          (let parts := extract_nominatim_address_parts rd.raw
          let nom_settlement := parts.1
          let expected_clean :=
            upperBG (pyTrim (pyReplace (pyReplace expected_settlement
              "ГРАД " "") "СЕЛО " ""))
          match nom_settlement with
          | some s =>
            if s.toList.isEmpty then false
            else
              let nom_clean := pyTrim (upperBG s)
              !(strIn expected_clean nom_clean) && !(strIn nom_clean expected_clean)
          | none => false)
      if settlement_fails then false
      else true

/-- The `for query_attempt in queries_to_try` loop of `geocode`
(02, lines 352–358): the first free-form attempt that yields a result
wins.  Besides the result, the list of queries actually sent (each one a
separate rate-limited HTTP request) is returned, making it observable
which strategies were consulted. -/
def firstFreeform (api : String → Option ApiPlace) (address_query : String) :
    List String → Option NomResult × List String
  | [] => (none, [])
  | q :: rest =>
    match nominatim_request_freeform api q address_query with
    | some r => (some r, [q])
    | none =>
      let t := firstFreeform api address_query rest
      (t.1, q :: t.2)

/-- The failure dict built when no strategy yields a result
(02, lines 361–369). -/
def nominatimFailure : NomResult :=
  { success := false, lat := none, lon := none, confidence := 0 }

/-- The common-fallback tail of `NominatimGeocoder.geocode`
(02, lines 349–372): when `result_data` is still `None`, try the prepared
fallback query list; if everything failed, build the failure dict; cache
and return whatever was obtained.  The third component is the log of
outbound requests issued by this tail. -/
def geocodeCommonFallback (apiFreeform : String → Option ApiPlace)
    (cache : List (String × NomResult)) (cache_key address_query : String)
    (queries_to_try : List String) (result_data : Option NomResult) :
    NomResult × List (String × NomResult) × List String :=
  match result_data with
  | some r => (r, cacheSet cache cache_key r, [])
  | none =>
    match firstFreeform apiFreeform address_query queries_to_try with
    | (some r, log) => (r, cacheSet cache cache_key r, log)
    | (none, log) => (nominatimFailure, cacheSet cache cache_key nominatimFailure, log)

/-- The structured-fallback step of the big-city path of `geocode`
(02, lines 320–331): attempted only when the flag is on and both a
truthy cleaned settlement and a truthy municipality token exist; a
successful structured result is cached and returned, a failed one resets
`result_data` to `None` before the common fallbacks; when the attempt is
not made at all, `result_data` keeps its previous value `rd0`.  The
request log records the structured request (in the `query_used` format
`structured:city,county,country`) followed by any fallback requests. -/
def geocodeBigStructuredStep (cfg : NomConfig)
    (apiFreeform : String → Option ApiPlace)
    (apiStructured : String → String → String → Option ApiPlace)
    (cache : List (String × NomResult)) (cache_key address_query : String)
    (queries_to_try : List String)
    (settlement_clean municipality_for_structured : Option String)
    (rd0 : Option NomResult) :
    NomResult × List (String × NomResult) × List String :=
  if cfg.fallback_to_structured &&
      (strTruthy settlement_clean && strTruthy municipality_for_structured) then
    let sq := "structured:" ++ settlement_clean.getD "" ++ "," ++
      municipality_for_structured.getD "" ++ ",Bulgaria"
    match nominatim_request_structured apiStructured (settlement_clean.getD "")
        (municipality_for_structured.getD "") "Bulgaria" with
    | some rd => (rd, cacheSet cache cache_key rd, [sq])
    | none =>
      let t := geocodeCommonFallback apiFreeform cache cache_key address_query
        queries_to_try none
      (t.1, t.2.1, sq :: t.2.2)
  else
    geocodeCommonFallback apiFreeform cache cache_key address_query
      queries_to_try rd0

/-- The `municipality_clean` local of `geocode` (02, line 276):
`municipality.strip() if municipality else None`. -/
def nomMunicipalityClean : Option String → Option String
  | some m => if m.toList.isEmpty then none else some (pyTrim m)
  | none => none

/-- The cache key of `geocode` (02, lines 280–282): the address query,
suffixed by the normalised (or raw cleaned) municipality token whenever a
truthy municipality is present. -/
def nomCacheKey (address_query : String) (municipality : Option String) :
    String :=
  if strTruthy municipality then
    address_query ++ "|municipality:" ++
      (if strTruthy (normalize_municipality_for_nominatim municipality) then
        (normalize_municipality_for_nominatim municipality).getD ""
      else if strTruthy (nomMunicipalityClean municipality) then
        (nomMunicipalityClean municipality).getD ""
      else "")
  else address_query

/-- The `settlement_clean` local of `geocode` (02, lines 287–289). -/
def nomSettlementClean : Option String → Option String
  | some s =>
    if s.toList.isEmpty then none
    else some (pyTrim (pyReplace (pyReplace s "СЕЛО " "") "ГРАД " ""))
  | none => none

/-- The `queries_to_try` list of `geocode` (02, lines 291–296). -/
def nomQueriesToTry (address_query : String)
    (settlement municipality : Option String) : List String :=
  [address_query] ++
  (if strTruthy (nomSettlementClean settlement) &&
      strTruthy (nomMunicipalityClean municipality) then
    [(nomSettlementClean settlement).getD "" ++ ", " ++
      (nomMunicipalityClean municipality).getD "" ++ ", България"]
  else []) ++
  (if strTruthy (nomSettlementClean settlement) then
    [(nomSettlementClean settlement).getD "" ++ ", България"]
  else [])

/-- `NominatimGeocoder.geocode` (02, lines 254–372), with the two HTTP
request helpers abstracted into oracles and the cache threaded
explicitly.  Returns the result dict, the updated cache, and the log of
outbound requests issued during the lookup (empty on a cache hit). -/
def NominatimGeocoder.geocode (cfg : NomConfig)
    (apiFreeform : String → Option ApiPlace)
    (apiStructured : String → String → String → Option ApiPlace)
    (cache : List (String × NomResult))
    (address_query : String) (settlement municipality : Option String) :
    NomResult × List (String × NomResult) × List String :=
  let cache_key := nomCacheKey address_query municipality
  match cacheGet cache cache_key with
  | some cached => (cached, cache, [])
  | none =>
    let settlement_clean := nomSettlementClean settlement
    let municipality_for_structured :=
      normalize_municipality_for_nominatim municipality
    let queries_to_try := nomQueriesToTry address_query settlement municipality
    if NominatimGeocoder.is_big_city cfg settlement && cfg.use_freeform_first then
      -- BIG CITY PATH: free-form with the full address first
      match nominatim_request_freeform apiFreeform address_query address_query with
      | some rd =>
        if NominatimGeocoder.validate_big_city_result cfg (some rd)
            (settlement.getD "") then
          (rd, cacheSet cache cache_key rd, [address_query])
        else
          let t := geocodeBigStructuredStep cfg apiFreeform apiStructured cache
            cache_key address_query queries_to_try settlement_clean
            municipality_for_structured (some rd)
          (t.1, t.2.1, address_query :: t.2.2)
      | none =>
        let t := geocodeBigStructuredStep cfg apiFreeform apiStructured cache
          cache_key address_query queries_to_try settlement_clean
          municipality_for_structured none
        (t.1, t.2.1, address_query :: t.2.2)
    else
      -- SMALL SETTLEMENT PATH: structured query first
      if strTruthy settlement_clean && strTruthy municipality_for_structured then
        let sq := "structured:" ++ settlement_clean.getD "" ++ "," ++
          municipality_for_structured.getD "" ++ ",Bulgaria"
        match nominatim_request_structured apiStructured
            (settlement_clean.getD "")
            (municipality_for_structured.getD "") "Bulgaria" with
        | some rd => (rd, cacheSet cache cache_key rd, [sq])
        | none =>
          let t := geocodeCommonFallback apiFreeform cache cache_key
            address_query queries_to_try none
          (t.1, t.2.1, sq :: t.2.2)
      else
        geocodeCommonFallback apiFreeform cache cache_key address_query
          queries_to_try none

/-- The per-character transliteration table of `cyrillic_to_latin`
(03, lines 61–72); characters outside the table map to themselves. -/
def translitChar (c : Char) : String :=
  match c with
  | 'А' => "A" | 'Б' => "B" | 'В' => "V" | 'Г' => "G" | 'Д' => "D"
  | 'Е' => "E" | 'Ж' => "Zh" | 'З' => "Z" | 'И' => "I" | 'Й' => "Y"
  | 'К' => "K" | 'Л' => "L" | 'М' => "M" | 'Н' => "N" | 'О' => "O"
  | 'П' => "P" | 'Р' => "R" | 'С' => "S" | 'Т' => "T" | 'У' => "U"
  | 'Ф' => "F" | 'Х' => "H" | 'Ц' => "Ts" | 'Ч' => "Ch" | 'Ш' => "Sh"
  | 'Щ' => "Sht" | 'Ъ' => "A" | 'Ь' => "Y" | 'Ю' => "Yu" | 'Я' => "Ya"
  | 'а' => "a" | 'б' => "b" | 'в' => "v" | 'г' => "g" | 'д' => "d"
  | 'е' => "e" | 'ж' => "zh" | 'з' => "z" | 'и' => "i" | 'й' => "y"
  | 'к' => "k" | 'л' => "l" | 'м' => "m" | 'н' => "n" | 'о' => "o"
  | 'п' => "p" | 'р' => "r" | 'с' => "s" | 'т' => "t" | 'у' => "u"
  | 'ф' => "f" | 'х' => "h" | 'ц' => "ts" | 'ч' => "ch" | 'ш' => "sh"
  | 'щ' => "sht" | 'ъ' => "a" | 'ь' => "y" | 'ю' => "yu" | 'я' => "ya"
  | other => String.mk [other]

/-- `cyrillic_to_latin` (03, lines 51–77). -/
def cyrillic_to_latin (s : String) : String :=
  String.join (s.toList.map translitChar)

/-- `normalize_settlement_name` (03, lines 80–106): uppercase, trim, then
strip each of the listed prefixes in turn (each hit also re-trims). -/
def normalize_settlement_name (settlement : Option String) : Option String :=
  match settlement with
  | none => none
  | some s =>
    if s.toList.isEmpty then none
    else
      let normalized := pyTrim (upperBG s)
      let prefixes : List String := ["СЕЛО ", "ГРАД ", "С. ", "ГР. ", "С.", "ГР."]
      some (prefixes.foldl
        (fun n p =>
          if matchesAt p.toList n.toList then
            pyTrim (n.toList.drop p.toList.length).asString
          else n)
        normalized)

/-- `settlement_matches` (03, lines 133–176): Cyrillic substring match,
then Latin-transliterated match, then a space-stripped transliterated
match. -/
def settlement_matches (expected_settlement address_string : Option String) :
    Bool :=
  if !(strTruthy expected_settlement) || !(strTruthy address_string) then false
  else
    let address_upper := upperBG (address_string.getD "")
    let expected_upper := upperBG (expected_settlement.getD "")
    if strIn expected_upper address_upper then true
    else
      let expected_latin := cyrillic_to_latin expected_upper
      let address_latin := cyrillic_to_latin address_upper
      if strIn expected_latin address_latin then true
      else
        let expected_no_space := pyReplace expected_latin " " ""
        let address_no_space := pyReplace address_latin " " ""
        if strIn expected_no_space address_no_space then true
        else false

/-- The core of `haversine_distance` (03, lines 25–48) on real numbers:
degrees are converted with `radians(x) = x·π/180`, the haversine formula
is applied, and the central angle is scaled by the Earth radius
6 371 000 m.  Python floating point is modelled by exact reals. -/
noncomputable def haversineCore (lat1 lon1 lat2 lon2 : ℝ) : ℝ :=
  let lon1r := lon1 * (Real.pi / 180)
  let lat1r := lat1 * (Real.pi / 180)
  let lon2r := lon2 * (Real.pi / 180)
  let lat2r := lat2 * (Real.pi / 180)
  let dlon := lon2r - lon1r
  let dlat := lat2r - lat1r
  let a := Real.sin (dlat / 2) ^ 2 +
    Real.cos lat1r * Real.cos lat2r * Real.sin (dlon / 2) ^ 2
  let c := 2 * Real.arcsin (Real.sqrt a)
  c * 6371000

/-- `haversine_distance` (03, lines 25–48) including the `None` guard:
`None` in any argument yields `None`. -/
noncomputable def haversine_distance :
    Option ℝ → Option ℝ → Option ℝ → Option ℝ → Option ℝ
  | some lat1, some lon1, some lat2, some lon2 =>
    some (haversineCore lat1 lon1 lat2 lon2)
  | _, _, _, _ => none

/-- The thresholds read from `config['thresholds']`
(03, lines 194–196; defaults 1000 m, 5000 m, 60). -/
structure Thresholds where
  ok_distance_m : ℝ
  suspicious_distance_m : ℝ
  min_confidence : ℤ

/-- The columns of one `community_centers` row consumed by
`compute_distances_and_status` (03, lines 211–219). -/
structure RecRow where
  settlement : Option String := none
  lon_src : Option ℚ := none
  lat_src : Option ℚ := none
  lon_nom : Option ℚ := none
  lat_nom : Option ℚ := none
  nom_confidence : Option ℤ := none
  nom_display_name : Option String := none
  lon_g : Option ℚ := none
  lat_g : Option ℚ := none
  g_confidence : Option ℤ := none
  g_formatted_address : Option String := none
deriving DecidableEq

/-- The reconciliation fields written back for one record
(03, lines 469–502); the free-text notes are not modelled. -/
structure ReconOut where
  dist_src_nom_m : Option ℝ
  dist_src_g_m : Option ℝ
  dist_nom_g_m : Option ℝ
  best_provider : Option String
  best_lon : Option ℚ
  best_lat : Option ℚ
  status : String

/-- The guarded source↔Nominatim distance (03, line 273): computed only
when all four endpoint coordinates are *truthy* (`all([...])`), so a
coordinate equal to `0` also suppresses the computation. -/
noncomputable def distSrcNom (r : RecRow) : Option ℝ :=
  if qTruthy r.lat_src && qTruthy r.lon_src && qTruthy r.lat_nom &&
      qTruthy r.lon_nom then
    haversine_distance (r.lat_src.map (fun q => (q : ℝ)))
      (r.lon_src.map (fun q => (q : ℝ)))
      (r.lat_nom.map (fun q => (q : ℝ)))
      (r.lon_nom.map (fun q => (q : ℝ)))
  else none

/-- The guarded source↔Google distance (03, line 274). -/
noncomputable def distSrcG (r : RecRow) : Option ℝ :=
  if qTruthy r.lat_src && qTruthy r.lon_src && qTruthy r.lat_g &&
      qTruthy r.lon_g then
    haversine_distance (r.lat_src.map (fun q => (q : ℝ)))
      (r.lon_src.map (fun q => (q : ℝ)))
      (r.lat_g.map (fun q => (q : ℝ)))
      (r.lon_g.map (fun q => (q : ℝ)))
  else none

/-- The guarded Nominatim↔Google distance (03, line 275). -/
noncomputable def distNomG (r : RecRow) : Option ℝ :=
  if qTruthy r.lat_nom && qTruthy r.lon_nom && qTruthy r.lat_g &&
      qTruthy r.lon_g then
    haversine_distance (r.lat_nom.map (fun q => (q : ℝ)))
      (r.lon_nom.map (fun q => (q : ℝ)))
      (r.lat_g.map (fun q => (q : ℝ)))
      (r.lon_g.map (fun q => (q : ℝ)))
  else none

/-- The best-coordinate / status decision of the per-record body of
`compute_distances_and_status` (03, lines 277–458), returning
(best_provider, best_lon, best_lat, status). -/
noncomputable def reconcileDecision (θ : Thresholds) (r : RecRow) :
    Option String × Option ℚ × Option ℚ × String :=
  let expected_settlement := normalize_settlement_name r.settlement
  let nom_confidence := r.nom_confidence.getD 0  -- `record.nom_confidence or 0`
  let g_confidence := r.g_confidence.getD 0
  let nom_settlement_match : Option Bool :=
    if strTruthy expected_settlement && strTruthy r.nom_display_name then
      some (settlement_matches expected_settlement r.nom_display_name)
    else none
  let g_settlement_match : Option Bool :=
    if strTruthy expected_settlement && strTruthy r.g_formatted_address then
      some (settlement_matches expected_settlement r.g_formatted_address)
    else none
  let dist_src_nom_m := distSrcNom r
  let dist_src_g_m := distSrcG r
  let has_nom := r.lon_nom.isSome && r.lat_nom.isSome
  let has_google := r.lon_g.isSome && r.lat_g.isSome
  let has_src := r.lon_src.isSome && r.lat_src.isSome
  if !has_nom && !has_google then
    -- No geocoding results at all
    (none, none, none, "not_found")
  else if has_src then
    let nom_available := has_nom &&
      (nom_settlement_match == none || nom_settlement_match == some true)
    let g_available := has_google &&
      (g_settlement_match == none || g_settlement_match == some true)
    if nom_available = true ∧ dist_src_nom_m ≠ none ∧
        dist_src_nom_m.getD 0 ≤ θ.ok_distance_m ∧
        θ.min_confidence ≤ nom_confidence then
      (some "nominatim", r.lon_nom, r.lat_nom, "ok")
    else if g_available = true ∧ dist_src_g_m ≠ none ∧
        dist_src_g_m.getD 0 ≤ θ.ok_distance_m ∧
        θ.min_confidence ≤ g_confidence then
      (some "google", r.lon_g, r.lat_g, "ok")
    else
      let nom_score : ℤ :=
        if nom_available then
          nom_confidence +
            (if dist_src_nom_m ≠ none then
              (if θ.suspicious_distance_m < dist_src_nom_m.getD 0 then -30
               else if θ.ok_distance_m < dist_src_nom_m.getD 0 then -15
               else 0)
            else 0)
        else -999
      let g_score : ℤ :=
        if g_available then
          g_confidence +
            (if dist_src_g_m ≠ none then
              (if θ.suspicious_distance_m < dist_src_g_m.getD 0 then -30
               else if θ.ok_distance_m < dist_src_g_m.getD 0 then -15
               else 0)
            else 0)
        else -999
      if nom_score < g_score ∧ g_available = true then
        (some "google", r.lon_g, r.lat_g,
          if dist_src_g_m ≠ none ∧ θ.suspicious_distance_m < dist_src_g_m.getD 0
          then "mismatch" else "needs_review")
      else if nom_available then
        (some "nominatim", r.lon_nom, r.lat_nom,
          if dist_src_nom_m ≠ none ∧
              θ.suspicious_distance_m < dist_src_nom_m.getD 0
          then "mismatch" else "needs_review")
      else if g_available then
        (some "google", r.lon_g, r.lat_g,
          if dist_src_g_m ≠ none ∧ θ.suspicious_distance_m < dist_src_g_m.getD 0
          then "mismatch" else "needs_review")
      else
        -- No provider available with correct settlement
        if has_nom && has_google then
          if g_confidence ≤ nom_confidence then
            (some "nominatim", r.lon_nom, r.lat_nom, "needs_review")
          else
            (some "google", r.lon_g, r.lat_g, "needs_review")
        else if has_nom then
          (some "nominatim", r.lon_nom, r.lat_nom, "needs_review")
        else
          (some "google", r.lon_g, r.lat_g, "needs_review")
  else
    -- No source coordinates
    if has_google = true ∧ θ.min_confidence ≤ g_confidence then
      (some "google", r.lon_g, r.lat_g, "ok")
    else if has_nom = true ∧ θ.min_confidence ≤ nom_confidence then
      (some "nominatim", r.lon_nom, r.lat_nom, "ok")
    else if has_google then
      (some "google", r.lon_g, r.lat_g, "needs_review")
    else if has_nom then
      (some "nominatim", r.lon_nom, r.lat_nom, "needs_review")
    else
      (none, none, none, "not_found")

/-- The per-record body of `compute_distances_and_status`
(03, lines 252–458): the three guarded distances together with the
decision of `reconcileDecision`. -/
noncomputable def reconcileRecord (θ : Thresholds) (r : RecRow) : ReconOut :=
  { dist_src_nom_m := distSrcNom r
    dist_src_g_m := distSrcG r
    dist_nom_g_m := distNomG r
    best_provider := (reconcileDecision θ r).1
    best_lon := (reconcileDecision θ r).2.1
    best_lat := (reconcileDecision θ r).2.2.1
    status := (reconcileDecision θ r).2.2.2 }

/-- Default thresholds of the pipeline: 1000 m, 5000 m, confidence 60. -/
noncomputable def defaultThresholds : Thresholds :=
  { ok_distance_m := 1000, suspicious_distance_m := 5000, min_confidence := 60 }

/-- Cosine of the central angle between two (lat, lon) points in degrees. -/
noncomputable def cosCentralAngle (lat1 lon1 lat2 lon2 : ℝ) : ℝ :=
  Real.sin (lat1*(Real.pi/180)) * Real.sin (lat2*(Real.pi/180)) +
  Real.cos (lat1*(Real.pi/180)) * Real.cos (lat2*(Real.pi/180)) *
    Real.cos (lon2*(Real.pi/180) - lon1*(Real.pi/180))


/-- Scenario configuration for the big-city path: Бургас configured as a
big city, all strategy flags at their defaults. -/
def burgasCfg : NomConfig := { big_cities := ["ГРАД БУРГАС"] }

/-- A free-form candidate that fails big-city validation: an
administrative boundary (city-centre centroid). -/
def burgasBoundaryPlace : ApiPlace :=
  { lat := some 1, lon := some 2, display_name := some "Бургас, България",
    class_ := some "boundary", type_ := some "administrative" }

/-- A specific building candidate, used for fallback queries. -/
def burgasBuildingPlace : ApiPlace :=
  { lat := some 3, lon := some 4,
    display_name := some "ул. Иван Вазов 5, Бургас, България",
    class_ := some "building", type_ := some "building" }

/-- Free-form oracle: the full address resolves to the administrative
boundary, the settlement-only fallback to the building. -/
def burgasApi : String → Option ApiPlace := fun q =>
  if q = "ул. Иван Вазов 5, БУРГАС, България" then some burgasBoundaryPlace
  else if q = "БУРГАС, България" then some burgasBuildingPlace
  else none

/-- The result dict `nominatim_request_freeform` builds from
`burgasBoundaryPlace` for the full-address query (base score
40 − 15 = 25, no fallback penalty). -/
def burgasBoundaryResult : NomResult :=
  { success := true, lat := some 1, lon := some 2,
    display_name := some "Бургас, България", osm_type := none, osm_id := none,
    importance := none, class_ := some "boundary",
    type_ := some "administrative", confidence := 25,
    raw := some burgasBoundaryPlace,
    query_used := some "ул. Иван Вазов 5, БУРГАС, България" }

/-- The record of reconciliation scenario 2: source (lon 25.05,
lat 42.10), no Nominatim result, Google at (lon 25.60, lat 42.10) with
confidence 90 and no settlement information (so the settlement match is
indeterminate, not false). -/
def scenario2Row : RecRow :=
  { lon_src := some (501/20), lat_src := some (421/10),
    lon_g := some (128/5), lat_g := some (421/10),
    g_confidence := some 90 }

/-- Claim C4: the secondary provider is needed iff the primary result
failed outright or succeeded with confidence strictly below the
threshold; at confidence exactly equal to the threshold it is not
needed. -/
theorem escalation_strictly_below (res : NomResult) (t : ℤ) :
    (need_google res t = true ↔ (res.success = false ∨ res.confidence < t)) ∧
    (res.success = true → res.confidence = t → need_google res t = false) := by
  constructor
  · cases h : res.success <;> simp [need_google, h]
  · intro hs hc
    simp [need_google, hs, hc]

/-- Witness for C4: a successful result with confidence exactly 60 does
not trigger escalation at threshold 60. -/
theorem escalation_strictly_below_witness :
    need_google { success := true, confidence := 60 } 60 = false :=
  (escalation_strictly_below { success := true, confidence := 60 } 60).2 rfl rfl

/-- Claim C6: the Nominatim scoring policy always lands in [0, 100], and
the Google policy only ever returns 95, 80, 60 or 40, with 40 for any
unknown precision tier. -/
theorem confidence_scores_bounded :
    (∀ p : ApiPlace, 0 ≤ NominatimGeocoder.calculate_confidence p ∧
      NominatimGeocoder.calculate_confidence p ≤ 100) ∧
    (∀ lt : Option String, GoogleGeocoder.calculate_confidence lt = 95 ∨
      GoogleGeocoder.calculate_confidence lt = 80 ∨
      GoogleGeocoder.calculate_confidence lt = 60 ∨
      GoogleGeocoder.calculate_confidence lt = 40) ∧
    (∀ s : String,
      s ∉ (["ROOFTOP", "RANGE_INTERPOLATED", "GEOMETRIC_CENTER",
        "APPROXIMATE"] : List String) →
      GoogleGeocoder.calculate_confidence (some s) = 40) := by
  refine ⟨fun p => ?_, fun lt => ?_, fun s hs => ?_⟩
  · dsimp only [NominatimGeocoder.calculate_confidence]
    exact ⟨le_max_left _ _, max_le (by norm_num) (min_le_left _ _)⟩
  · dsimp only [GoogleGeocoder.calculate_confidence]
    split_ifs <;> simp
  · simp only [List.mem_cons, List.mem_singleton, not_or] at hs
    obtain ⟨h1, h2, h3, h4⟩ := hs
    simp [GoogleGeocoder.calculate_confidence, h1, h2, h3, h4]

/-- Witness for C6: an unknown Google precision tier scores 40. -/
theorem confidence_scores_bounded_witness :
    GoogleGeocoder.calculate_confidence (some "SOMETHING_ELSE") = 40 :=
  confidence_scores_bounded.2.2 "SOMETHING_ELSE" (by decide)

/-- Claim C3: with the reject-administrative check enabled, big-city
validation rejects any candidate whose class is `boundary` or whose type
is `administrative`, whatever its confidence. -/
theorem bigcity_admin_rejected (cfg : NomConfig) (rd : NomResult) (exp : String)
    (hflag : cfg.reject_administrative_only = true)
    (h : rd.type_ = some "administrative" ∨ rd.class_ = some "boundary") :
    NominatimGeocoder.validate_big_city_result cfg (some rd) exp = false := by
  cases hs : rd.success
  · simp [NominatimGeocoder.validate_big_city_result, hs]
  · rcases h with h | h <;>
      simp [NominatimGeocoder.validate_big_city_result, hs, hflag, h]

/-- Witness for C3: an administrative-boundary candidate with confidence
95 for the configured big city is rejected. -/
theorem bigcity_admin_rejected_witness :
    NominatimGeocoder.validate_big_city_result
      { big_cities := ["ГРАД БУРГАС"] }
      (some { success := true, class_ := some "boundary",
              type_ := some "administrative", confidence := 95 })
      "ГРАД БУРГАС" = false :=
  bigcity_admin_rejected { big_cities := ["ГРАД БУРГАС"] }
    { success := true, class_ := some "boundary",
      type_ := some "administrative", confidence := 95 }
    "ГРАД БУРГАС" rfl (Or.inl rfl)

/-- Claim C7: a successful free-form attempt stores
`max(base − 20, 30)` when the query is not the literal full address, and
the unpenalised base score otherwise. -/
theorem freeform_fallback_penalty (api : String → Option ApiPlace)
    (qa aq : String) (p : ApiPlace) (h : api qa = some p) :
    (nominatim_request_freeform api qa aq).map NomResult.confidence =
      some (if qa = aq then NominatimGeocoder.calculate_confidence p
        else max (NominatimGeocoder.calculate_confidence p - 20) 30) := by
  by_cases hq : qa = aq
  · subst hq
    simp [nominatim_request_freeform, h]
  · simp [nominatim_request_freeform, h, hq]

/-- Witness for C7: a fallback query on a default place (base score 40)
stores `max(40 − 20, 30) = 30`. -/
theorem freeform_fallback_penalty_witness :
    (nominatim_request_freeform (fun _ => some {}) "БУРГАС, България"
      "ул. Иван Вазов, БУРГАС").map NomResult.confidence = some 30 := by
  rw [freeform_fallback_penalty (fun _ => some {}) "БУРГАС, България"
    "ул. Иван Вазов, БУРГАС" {} rfl, if_neg (by decide)]
  decide

/-- Claim C9: `set` then `get` on the same key returns the stored value
(failure results included, since the value is an arbitrary result dict);
a second `set` on the same key fully overwrites the first; and after a
`set` the table holds exactly one row for that key. -/
theorem cache_set_get_roundtrip :
    (∀ (entries : List (String × NomResult)) (k : String) (v : NomResult),
      cacheGet (cacheSet entries k v) k = some v) ∧
    (∀ (entries : List (String × NomResult)) (k : String) (v v' : NomResult),
      cacheSet (cacheSet entries k v) k v' = cacheSet entries k v') ∧
    (∀ (entries : List (String × NomResult)) (k : String) (v : NomResult),
      ((cacheSet entries k v).filter (fun e => e.1 == k)).length = 1) := by
  refine ⟨fun entries k v => ?_, fun entries k v v' => ?_, fun entries k v => ?_⟩
  · unfold cacheGet cacheSet
    induction entries with
    | nil => simp
    | cons e t ih =>
      by_cases he : e.1 = k
      · simpa [List.filter_cons, he] using ih
      · simpa [List.filter_cons, he, List.find?_cons] using ih
  · unfold cacheSet
    rw [List.filter_append]
    simp [List.filter_filter]
  · unfold cacheSet
    rw [List.filter_append]
    have h : (entries.filter (fun e => e.1 != k)).filter
        (fun e => e.1 == k) = [] := by
      rw [List.filter_filter]
      apply List.filter_eq_nil_iff.mpr
      intro a _
      simp [bne]
    simp [h]

/-- Claim C10: a pairwise distance is computed only when all four of its
endpoint coordinates are truthy, so an endpoint equal to exactly 0 makes
the stored distance null even though the coordinate is present. -/
theorem zero_coordinate_suppresses_distance (θ : Thresholds) (r : RecRow) :
    ((r.lat_src = some 0 ∨ r.lon_src = some 0 ∨ r.lat_nom = some 0 ∨
        r.lon_nom = some 0) → (reconcileRecord θ r).dist_src_nom_m = none) ∧
    ((r.lat_src = some 0 ∨ r.lon_src = some 0 ∨ r.lat_g = some 0 ∨
        r.lon_g = some 0) → (reconcileRecord θ r).dist_src_g_m = none) ∧
    ((r.lat_nom = some 0 ∨ r.lon_nom = some 0 ∨ r.lat_g = some 0 ∨
        r.lon_g = some 0) → (reconcileRecord θ r).dist_nom_g_m = none) := by
  refine ⟨fun h => ?_, fun h => ?_, fun h => ?_⟩ <;>
    rcases h with h | h | h | h <;>
      simp [reconcileRecord, distSrcNom, distSrcG, distNomG, h, qTruthy]

/-- Witness for C10: records whose source latitude (respectively
Nominatim latitude) is exactly 0 get a null source↔Nominatim,
source↔Google (respectively Nominatim↔Google) distance although both
endpoints are present. -/
theorem zero_coordinate_suppresses_distance_witness :
    (reconcileRecord defaultThresholds
      { lat_src := some 0, lon_src := some 25, lat_nom := some 42,
        lon_nom := some 25, lat_g := some 42, lon_g := some 25 }).dist_src_nom_m
      = none ∧
    (reconcileRecord defaultThresholds
      { lat_src := some 0, lon_src := some 25, lat_nom := some 42,
        lon_nom := some 25, lat_g := some 42, lon_g := some 25 }).dist_src_g_m
      = none ∧
    (reconcileRecord defaultThresholds
      { lat_src := some 42, lon_src := some 25, lat_nom := some 0,
        lon_nom := some 25, lat_g := some 42, lon_g := some 25 }).dist_nom_g_m
      = none :=
  ⟨(zero_coordinate_suppresses_distance defaultThresholds
      { lat_src := some 0, lon_src := some 25, lat_nom := some 42,
        lon_nom := some 25, lat_g := some 42, lon_g := some 25 }).1
      (Or.inl rfl),
   (zero_coordinate_suppresses_distance defaultThresholds
      { lat_src := some 0, lon_src := some 25, lat_nom := some 42,
        lon_nom := some 25, lat_g := some 42, lon_g := some 25 }).2.1
      (Or.inl rfl),
   (zero_coordinate_suppresses_distance defaultThresholds
      { lat_src := some 42, lon_src := some 25, lat_nom := some 0,
        lon_nom := some 25, lat_g := some 42, lon_g := some 25 }).2.2
      (Or.inl rfl)⟩

/-- Counterexample for C1: a record with a source coordinate and no
provider coordinates gets status `not_found` with best provider and best
coordinates cleared — the code never assigns the source coordinate as
best, contradicting the claim that best = source (tagged `source`) when a
source coordinate is present. -/
theorem not_found_ignores_source_counterexample :
    ({ lon_src := some 25, lat_src := some 42 } : RecRow).lon_src.isSome = true ∧
    ({ lon_src := some 25, lat_src := some 42 } : RecRow).lat_src.isSome = true ∧
    (reconcileRecord defaultThresholds
      { lon_src := some 25, lat_src := some 42 }).status = "not_found" ∧
    (reconcileRecord defaultThresholds
      { lon_src := some 25, lat_src := some 42 }).best_provider ≠ some "source" ∧
    (reconcileRecord defaultThresholds
      { lon_src := some 25, lat_src := some 42 }).best_provider = none ∧
    (reconcileRecord defaultThresholds
      { lon_src := some 25, lat_src := some 42 }).best_lon = none ∧
    (reconcileRecord defaultThresholds
      { lon_src := some 25, lat_src := some 42 }).best_lat = none := by
  refine ⟨rfl, rfl, ?_, ?_, ?_, ?_, ?_⟩ <;>
    simp [reconcileRecord, reconcileDecision]

/-- Claim C1 (amended): whenever neither provider produced a coordinate,
the record is marked `not_found` and the best provider and best
coordinates are always `none` — also when a source coordinate exists; the
source coordinate is never promoted to best. -/
theorem not_found_clears_best (θ : Thresholds) (r : RecRow)
    (hn : (r.lon_nom.isSome && r.lat_nom.isSome) = false)
    (hg : (r.lon_g.isSome && r.lat_g.isSome) = false) :
    (reconcileRecord θ r).status = "not_found" ∧
    (reconcileRecord θ r).best_provider = none ∧
    (reconcileRecord θ r).best_lon = none ∧
    (reconcileRecord θ r).best_lat = none := by
  have hd : reconcileDecision θ r = (none, none, none, "not_found") := by
    simp only [reconcileDecision, hn, hg]
    norm_num
  simp [reconcileRecord, hd]

/-- Witness for C1 (amended): concrete record with source coordinates
only. -/
theorem not_found_clears_best_witness :
    (reconcileRecord defaultThresholds
      { lon_src := some 25, lat_src := some 42 }).status = "not_found" ∧
    (reconcileRecord defaultThresholds
      { lon_src := some 25, lat_src := some 42 }).best_provider = none ∧
    (reconcileRecord defaultThresholds
      { lon_src := some 25, lat_src := some 42 }).best_lon = none ∧
    (reconcileRecord defaultThresholds
      { lon_src := some 25, lat_src := some 42 }).best_lat = none :=
  not_found_clears_best defaultThresholds
    { lon_src := some 25, lat_src := some 42 } rfl rfl

/-- Counterexample for C2: for a configured big city with no municipality
value, the free-form result fails validation, the common fallback list is
non-trivial (it also holds the settlement-only query), yet `geocode`
issues no further request (the log is just the initial free-form query)
and returns the invalid free-form result itself. -/
theorem bigcity_no_token_counterexample :
    NominatimGeocoder.validate_big_city_result burgasCfg
      (nominatim_request_freeform burgasApi
        "ул. Иван Вазов 5, БУРГАС, България"
        "ул. Иван Вазов 5, БУРГАС, България") "ГРАД БУРГАС" = false ∧
    normalize_municipality_for_nominatim none = none ∧
    nomQueriesToTry "ул. Иван Вазов 5, БУРГАС, България"
      (some "ГРАД БУРГАС") none =
      ["ул. Иван Вазов 5, БУРГАС, България", "БУРГАС, България"] ∧
    (NominatimGeocoder.geocode burgasCfg burgasApi (fun _ _ _ => none) []
      "ул. Иван Вазов 5, БУРГАС, България" (some "ГРАД БУРГАС") none).2.2 =
      ["ул. Иван Вазов 5, БУРГАС, България"] ∧
    (NominatimGeocoder.geocode burgasCfg burgasApi (fun _ _ _ => none) []
      "ул. Иван Вазов 5, БУРГАС, България" (some "ГРАД БУРГАС") none).1 =
      burgasBoundaryResult := by
  refine ⟨?_, rfl, ?_, ?_, ?_⟩ <;> decide

/-- Claim C2 (amended): for a big-city lookup (cache miss, free-form
first) whose initial free-form result fails validation: (a) when the
structured fallback is enabled and both a truthy cleaned settlement and a
truthy municipality token exist but the structured request fails, the
geocoder proceeds to the common fallback query list; (b) when no truthy
municipality token is available, the invalid free-form result is returned
and cached as-is, with no further requests. -/
theorem bigcity_fallback_amended (cfg : NomConfig)
    (apiF : String → Option ApiPlace)
    (apiS : String → String → String → Option ApiPlace)
    (cache : List (String × NomResult)) (aq : String)
    (settlement municipality : Option String) (rd : NomResult)
    (hmiss : cacheGet cache (nomCacheKey aq municipality) = none)
    (hbig : NominatimGeocoder.is_big_city cfg settlement = true)
    (hff : cfg.use_freeform_first = true)
    (hreq : nominatim_request_freeform apiF aq aq = some rd)
    (hinv : NominatimGeocoder.validate_big_city_result cfg (some rd)
      (settlement.getD "") = false) :
    (cfg.fallback_to_structured = true →
      strTruthy (nomSettlementClean settlement) = true →
      strTruthy (normalize_municipality_for_nominatim municipality) = true →
      apiS ((nomSettlementClean settlement).getD "")
        ((normalize_municipality_for_nominatim municipality).getD "")
        "Bulgaria" = none →
      NominatimGeocoder.geocode cfg apiF apiS cache aq settlement municipality =
        (let t := geocodeCommonFallback apiF cache (nomCacheKey aq municipality)
            aq (nomQueriesToTry aq settlement municipality) none
         (t.1, t.2.1,
           aq :: ("structured:" ++ (nomSettlementClean settlement).getD "" ++
             "," ++ (normalize_municipality_for_nominatim municipality).getD ""
             ++ ",Bulgaria") :: t.2.2))) ∧
    (strTruthy (normalize_municipality_for_nominatim municipality) = false →
      NominatimGeocoder.geocode cfg apiF apiS cache aq settlement municipality =
        (rd, cacheSet cache (nomCacheKey aq municipality) rd, [aq])) := by
  constructor
  · intro hfs hsc hmfs hs
    simp only [NominatimGeocoder.geocode, hmiss, hbig, hff, hreq, hinv,
      Bool.and_self, Bool.true_and, if_false, Bool.false_eq_true, if_true]
    simp only [geocodeBigStructuredStep, hfs, hsc, hmfs, Bool.and_self,
      Bool.true_and, if_true]
    simp [nominatim_request_structured, hs]
  · intro hmfs
    simp only [NominatimGeocoder.geocode, hmiss, hbig, hff, hreq, hinv,
      Bool.and_self, Bool.true_and, if_false, Bool.false_eq_true, if_true]
    simp [geocodeBigStructuredStep, hmfs, geocodeCommonFallback]

/-- Witness for C2 (amended): part (a) with municipality
`община БУРГАС` (token `БУРГАС`) and a failing structured oracle; part
(b) with no municipality. -/
theorem bigcity_fallback_amended_witness :
    (NominatimGeocoder.geocode burgasCfg burgasApi (fun _ _ _ => none) []
      "ул. Иван Вазов 5, БУРГАС, България" (some "ГРАД БУРГАС")
      (some "община БУРГАС") =
      (let t := geocodeCommonFallback burgasApi []
          (nomCacheKey "ул. Иван Вазов 5, БУРГАС, България"
            (some "община БУРГАС"))
          "ул. Иван Вазов 5, БУРГАС, България"
          (nomQueriesToTry "ул. Иван Вазов 5, БУРГАС, България"
            (some "ГРАД БУРГАС") (some "община БУРГАС")) none
       (t.1, t.2.1,
         "ул. Иван Вазов 5, БУРГАС, България" ::
           ("structured:" ++
             (nomSettlementClean (some "ГРАД БУРГАС")).getD "" ++ "," ++
             (normalize_municipality_for_nominatim
               (some "община БУРГАС")).getD "" ++ ",Bulgaria") :: t.2.2))) ∧
    (NominatimGeocoder.geocode burgasCfg burgasApi (fun _ _ _ => none) []
      "ул. Иван Вазов 5, БУРГАС, България" (some "ГРАД БУРГАС") none =
      (burgasBoundaryResult,
        cacheSet []
          (nomCacheKey "ул. Иван Вазов 5, БУРГАС, България" none)
          burgasBoundaryResult,
        ["ул. Иван Вазов 5, БУРГАС, България"])) :=
  ⟨(bigcity_fallback_amended burgasCfg burgasApi (fun _ _ _ => none) []
      "ул. Иван Вазов 5, БУРГАС, България" (some "ГРАД БУРГАС")
      (some "община БУРГАС") burgasBoundaryResult rfl (by decide) rfl
      (by decide) (by decide)).1 rfl (by decide) (by decide) rfl,
   (bigcity_fallback_amended burgasCfg burgasApi (fun _ _ _ => none) []
      "ул. Иван Вазов 5, БУРГАС, България" (some "ГРАД БУРГАС")
      none burgasBoundaryResult rfl (by decide) rfl
      (by decide) (by decide)).2 (by decide)⟩
lemma cs3 (p1 p2 p3 q1 q2 q3 : ℝ) :
    (p1*q1 + p2*q2 + p3*q3)^2 ≤ (p1^2+p2^2+p3^2) * (q1^2+q2^2+q3^2) := by
  nlinarith [sq_nonneg (p1*q2 - p2*q1), sq_nonneg (p1*q3 - p3*q1),
    sq_nonneg (p2*q3 - p3*q2)]

lemma gram_bound (x1 y1 z1 x2 y2 z2 x3 y3 z3 : ℝ)
    (h1 : x1^2+y1^2+z1^2 = 1) (h2 : x2^2+y2^2+z2^2 = 1)
    (h3 : x3^2+y3^2+z3^2 = 1) :
    ((x1*x3+y1*y3+z1*z3) - (x1*x2+y1*y2+z1*z2)*(x2*x3+y2*y3+z2*z3))^2 ≤
      (1-(x1*x2+y1*y2+z1*z2)^2) * (1-(x2*x3+y2*y3+z2*z3)^2) := by
  have hpp : (x1-(x1*x2+y1*y2+z1*z2)*x2)^2 + (y1-(x1*x2+y1*y2+z1*z2)*y2)^2 +
      (z1-(x1*x2+y1*y2+z1*z2)*z2)^2 = 1-(x1*x2+y1*y2+z1*z2)^2 := by
    linear_combination h1 + (x1*x2+y1*y2+z1*z2)^2 * h2
  have hqq : (x3-(x2*x3+y2*y3+z2*z3)*x2)^2 + (y3-(x2*x3+y2*y3+z2*z3)*y2)^2 +
      (z3-(x2*x3+y2*y3+z2*z3)*z2)^2 = 1-(x2*x3+y2*y3+z2*z3)^2 := by
    linear_combination h3 + (x2*x3+y2*y3+z2*z3)^2 * h2
  have hpq : (x1-(x1*x2+y1*y2+z1*z2)*x2)*(x3-(x2*x3+y2*y3+z2*z3)*x2) +
      (y1-(x1*x2+y1*y2+z1*z2)*y2)*(y3-(x2*x3+y2*y3+z2*z3)*y2) +
      (z1-(x1*x2+y1*y2+z1*z2)*z2)*(z3-(x2*x3+y2*y3+z2*z3)*z2) =
      (x1*x3+y1*y3+z1*z3) - (x1*x2+y1*y2+z1*z2)*(x2*x3+y2*y3+z2*z3) := by
    linear_combination (x1*x2+y1*y2+z1*z2)*(x2*x3+y2*y3+z2*z3) * h2
  have h := cs3 (x1-(x1*x2+y1*y2+z1*z2)*x2) (y1-(x1*x2+y1*y2+z1*z2)*y2)
    (z1-(x1*x2+y1*y2+z1*z2)*z2) (x3-(x2*x3+y2*y3+z2*z3)*x2)
    (y3-(x2*x3+y2*y3+z2*z3)*y2) (z3-(x2*x3+y2*y3+z2*z3)*z2)
  rw [hpp, hqq, hpq] at h
  exact h

lemma arccos_triangle_of_gram (a b c : ℝ) (ha : -1 ≤ a) (ha' : a ≤ 1)
    (hb : -1 ≤ b) (hb' : b ≤ 1)
    (hg : (c - a*b)^2 ≤ (1-a^2)*(1-b^2)) :
    Real.arccos c ≤ Real.arccos a + Real.arccos b := by
  by_cases hpi : Real.arccos a + Real.arccos b ≤ Real.pi
  · have h1a : (0:ℝ) ≤ 1 - a^2 := by nlinarith
    have h1b : (0:ℝ) ≤ 1 - b^2 := by nlinarith
    have hcos : Real.cos (Real.arccos a + Real.arccos b) ≤ c := by
      rw [Real.cos_add, Real.cos_arccos ha ha', Real.cos_arccos hb hb',
        Real.sin_arccos, Real.sin_arccos]
      have habs : |c - a*b| ≤ Real.sqrt ((1-a^2)*(1-b^2)) := by
        rw [← Real.sqrt_sq_eq_abs]
        exact Real.sqrt_le_sqrt hg
      rw [Real.sqrt_mul h1a] at habs
      have hneg := neg_abs_le (c - a*b)
      linarith
    have hmono : Real.arccos c ≤
        Real.arccos (Real.cos (Real.arccos a + Real.arccos b)) := by
      rw [Real.arccos_eq_pi_div_two_sub_arcsin,
        Real.arccos_eq_pi_div_two_sub_arcsin]
      have := Real.monotone_arcsin hcos
      linarith
    rwa [Real.arccos_cos
      (add_nonneg (Real.arccos_nonneg a) (Real.arccos_nonneg b)) hpi] at hmono
  · push_neg at hpi
    linarith [Real.arccos_le_pi c]

lemma sin_half_sq (d : ℝ) : Real.sin (d/2)^2 = (1 - Real.cos d)/2 := by
  rw [Real.sin_sq_eq_half_sub, show 2*(d/2) = d by ring]
  ring

lemma sph_norm (φ lam : ℝ) :
    (Real.cos φ * Real.cos lam)^2 + (Real.cos φ * Real.sin lam)^2 +
      (Real.sin φ)^2 = 1 := by
  linear_combination (Real.cos φ)^2 * Real.sin_sq_add_cos_sq lam +
    Real.sin_sq_add_cos_sq φ

lemma cosCentral_inner (lat1 lon1 lat2 lon2 : ℝ) :
    cosCentralAngle lat1 lon1 lat2 lon2 =
      (Real.cos (lat1*(Real.pi/180)) * Real.cos (lon1*(Real.pi/180))) *
        (Real.cos (lat2*(Real.pi/180)) * Real.cos (lon2*(Real.pi/180))) +
      (Real.cos (lat1*(Real.pi/180)) * Real.sin (lon1*(Real.pi/180))) *
        (Real.cos (lat2*(Real.pi/180)) * Real.sin (lon2*(Real.pi/180))) +
      Real.sin (lat1*(Real.pi/180)) * Real.sin (lat2*(Real.pi/180)) := by
  unfold cosCentralAngle
  rw [Real.cos_sub]
  ring

lemma cosCentral_bounds (lat1 lon1 lat2 lon2 : ℝ) :
    -1 ≤ cosCentralAngle lat1 lon1 lat2 lon2 ∧
      cosCentralAngle lat1 lon1 lat2 lon2 ≤ 1 := by
  have h := cs3 (Real.cos (lat1*(Real.pi/180)) * Real.cos (lon1*(Real.pi/180)))
    (Real.cos (lat1*(Real.pi/180)) * Real.sin (lon1*(Real.pi/180)))
    (Real.sin (lat1*(Real.pi/180)))
    (Real.cos (lat2*(Real.pi/180)) * Real.cos (lon2*(Real.pi/180)))
    (Real.cos (lat2*(Real.pi/180)) * Real.sin (lon2*(Real.pi/180)))
    (Real.sin (lat2*(Real.pi/180)))
  rw [sph_norm, sph_norm, ← cosCentral_inner] at h
  have h2 : (cosCentralAngle lat1 lon1 lat2 lon2)^2 ≤ 1 := by linarith
  constructor <;> nlinarith [h2]

lemma haversineCore_arcsin (lat1 lon1 lat2 lon2 : ℝ) :
    haversineCore lat1 lon1 lat2 lon2 =
      2 * Real.arcsin (Real.sqrt
        ((1 - cosCentralAngle lat1 lon1 lat2 lon2)/2)) * 6371000 := by
  unfold haversineCore
  dsimp only
  rw [sin_half_sq, sin_half_sq]
  have key : (1 - Real.cos (lat2*(Real.pi/180) - lat1*(Real.pi/180)))/2 +
      Real.cos (lat1*(Real.pi/180)) * Real.cos (lat2*(Real.pi/180)) *
        ((1 - Real.cos (lon2*(Real.pi/180) - lon1*(Real.pi/180)))/2) =
      (1 - cosCentralAngle lat1 lon1 lat2 lon2)/2 := by
    unfold cosCentralAngle
    rw [Real.cos_sub]
    ring
  rw [key]

lemma arccos_eq_two_arcsin (c : ℝ) (h1 : -1 ≤ c) (h2 : c ≤ 1) :
    Real.arccos c = 2 * Real.arcsin (Real.sqrt ((1 - c)/2)) := by
  have hnn : (0:ℝ) ≤ (1 - c)/2 := by linarith
  have hle : ((1 - c)/2 : ℝ) ≤ 1 := by linarith
  have hs0 : 0 ≤ Real.sqrt ((1 - c)/2) := Real.sqrt_nonneg _
  have hs1 : Real.sqrt ((1 - c)/2) ≤ 1 := Real.sqrt_le_one.mpr hle
  have ht0 : 0 ≤ Real.arcsin (Real.sqrt ((1 - c)/2)) :=
    Real.arcsin_nonneg.mpr hs0
  have htp : Real.arcsin (Real.sqrt ((1 - c)/2)) ≤ Real.pi/2 :=
    Real.arcsin_le_pi_div_two _
  have hsin : Real.sin (Real.arcsin (Real.sqrt ((1 - c)/2))) =
      Real.sqrt ((1 - c)/2) := Real.sin_arcsin (by linarith) hs1
  have hcos2 : Real.cos (2 * Real.arcsin (Real.sqrt ((1 - c)/2))) = c := by
    rw [Real.cos_two_mul]
    have hsq := Real.sin_sq_add_cos_sq (Real.arcsin (Real.sqrt ((1 - c)/2)))
    have : Real.sin (Real.arcsin (Real.sqrt ((1 - c)/2)))^2 = (1 - c)/2 := by
      rw [hsin]
      exact Real.sq_sqrt hnn
    nlinarith [this, hsq]
  calc Real.arccos c
      = Real.arccos (Real.cos (2 * Real.arcsin (Real.sqrt ((1 - c)/2)))) := by
        rw [hcos2]
    _ = 2 * Real.arcsin (Real.sqrt ((1 - c)/2)) :=
        Real.arccos_cos (by linarith) (by linarith [Real.pi_pos])

lemma haversineCore_arccos (lat1 lon1 lat2 lon2 : ℝ) :
    haversineCore lat1 lon1 lat2 lon2 =
      Real.arccos (cosCentralAngle lat1 lon1 lat2 lon2) * 6371000 := by
  rw [haversineCore_arcsin,
    arccos_eq_two_arcsin _ (cosCentral_bounds lat1 lon1 lat2 lon2).1
      (cosCentral_bounds lat1 lon1 lat2 lon2).2]

lemma haversineCore_self (lat lon : ℝ) :
    haversineCore lat lon lat lon = 0 := by
  have hc : cosCentralAngle lat lon lat lon = 1 := by
    unfold cosCentralAngle
    rw [sub_self, Real.cos_zero, mul_one]
    linear_combination Real.sin_sq_add_cos_sq (lat*(Real.pi/180))
  rw [haversineCore_arccos, hc, Real.arccos_one, zero_mul]

lemma haversineCore_symm (lat1 lon1 lat2 lon2 : ℝ) :
    haversineCore lat1 lon1 lat2 lon2 = haversineCore lat2 lon2 lat1 lon1 := by
  have hsym : cosCentralAngle lat1 lon1 lat2 lon2 =
      cosCentralAngle lat2 lon2 lat1 lon1 := by
    unfold cosCentralAngle
    rw [show lon1*(Real.pi/180) - lon2*(Real.pi/180) =
      -(lon2*(Real.pi/180) - lon1*(Real.pi/180)) by ring, Real.cos_neg]
    ring
  rw [haversineCore_arccos, haversineCore_arccos, hsym]

lemma haversineCore_triangle (lat1 lon1 lat2 lon2 lat3 lon3 : ℝ) :
    haversineCore lat1 lon1 lat3 lon3 ≤
      haversineCore lat1 lon1 lat2 lon2 + haversineCore lat2 lon2 lat3 lon3 := by
  rw [haversineCore_arccos, haversineCore_arccos, haversineCore_arccos]
  have hb12 := cosCentral_bounds lat1 lon1 lat2 lon2
  have hb23 := cosCentral_bounds lat2 lon2 lat3 lon3
  have hgram : (cosCentralAngle lat1 lon1 lat3 lon3 -
      cosCentralAngle lat1 lon1 lat2 lon2 * cosCentralAngle lat2 lon2 lat3 lon3)^2 ≤
      (1 - (cosCentralAngle lat1 lon1 lat2 lon2)^2) *
      (1 - (cosCentralAngle lat2 lon2 lat3 lon3)^2) := by
    have h := gram_bound
      (Real.cos (lat1*(Real.pi/180)) * Real.cos (lon1*(Real.pi/180)))
      (Real.cos (lat1*(Real.pi/180)) * Real.sin (lon1*(Real.pi/180)))
      (Real.sin (lat1*(Real.pi/180)))
      (Real.cos (lat2*(Real.pi/180)) * Real.cos (lon2*(Real.pi/180)))
      (Real.cos (lat2*(Real.pi/180)) * Real.sin (lon2*(Real.pi/180)))
      (Real.sin (lat2*(Real.pi/180)))
      (Real.cos (lat3*(Real.pi/180)) * Real.cos (lon3*(Real.pi/180)))
      (Real.cos (lat3*(Real.pi/180)) * Real.sin (lon3*(Real.pi/180)))
      (Real.sin (lat3*(Real.pi/180)))
      (sph_norm _ _) (sph_norm _ _) (sph_norm _ _)
    rw [← cosCentral_inner, ← cosCentral_inner, ← cosCentral_inner] at h
    exact h
  have htri := arccos_triangle_of_gram
    (cosCentralAngle lat1 lon1 lat2 lon2) (cosCentralAngle lat2 lon2 lat3 lon3)
    (cosCentralAngle lat1 lon1 lat3 lon3) hb12.1 hb12.2 hb23.1 hb23.2 hgram
  have hmul := mul_le_mul_of_nonneg_right htri
    (by norm_num : (0:ℝ) ≤ 6371000)
  linarith [hmul]


/-- Claim C8: the haversine distance returns 0 for any point paired with
itself, is symmetric in its two endpoints (also through the None-guarded
wrapper), and satisfies the triangle inequality. -/
theorem haversine_metric_properties :
    (∀ lat lon : ℝ, haversine_distance (some lat) (some lon) (some lat)
      (some lon) = some 0) ∧
    (∀ a b c d : Option ℝ,
      haversine_distance a b c d = haversine_distance c d a b) ∧
    (∀ lat1 lon1 lat2 lon2 lat3 lon3 : ℝ,
      haversineCore lat1 lon1 lat3 lon3 ≤
        haversineCore lat1 lon1 lat2 lon2 +
          haversineCore lat2 lon2 lat3 lon3) := by
  refine ⟨fun lat lon => ?_, fun a b c d => ?_, haversineCore_triangle⟩
  · simp [haversine_distance, haversineCore_self]
  · rcases a with _ | la <;> rcases b with _ | lb <;>
      rcases c with _ | lc <;> rcases d with _ | ld <;>
        simp [haversine_distance]
    exact haversineCore_symm la lb lc ld

lemma le_arcsin_self (x : ℝ) (h0 : 0 ≤ x) (h1 : x ≤ 1) : x ≤ Real.arcsin x := by
  have hs : Real.sin (Real.arcsin x) = x := Real.sin_arcsin (by linarith) h1
  have := Real.sin_le (Real.arcsin_nonneg.mpr h0)
  linarith

lemma scenario2_distance_gt :
    (5000:ℝ) < haversineCore (421/10) (501/20) (421/10) (128/5) := by
  unfold haversineCore
  dsimp only
  have hπl := Real.pi_gt_d2
  have hπu := Real.pi_lt_d2
  have hπ0 := Real.pi_pos
  set φ : ℝ := (421/10 : ℝ) * (Real.pi/180) with hφ
  set w : ℝ := ((128/5 : ℝ) * (Real.pi/180) - (501/20 : ℝ) * (Real.pi/180))/2
    with hw
  have hφub : φ ≤ 0.73675 := by rw [hφ]; nlinarith
  have hφ0 : 0 ≤ φ := by rw [hφ]; positivity
  have hcosφ : (7:ℝ)/10 ≤ Real.cos φ := by
    have := Real.one_sub_sq_div_two_le_cos (x := φ)
    nlinarith
  have hw0 : 0 < w := by rw [hw]; nlinarith
  have hwub : w ≤ 1/200 := by rw [hw]; nlinarith
  have hwlb : (479:ℝ)/100000 ≤ w := by rw [hw]; nlinarith
  have hw1 : w ≤ 1 := by linarith
  have hsinw : (47:ℝ)/10000 ≤ Real.sin w := by
    have hcube := Real.sin_gt_sub_cube hw0 hw1
    have hp : w^3 ≤ (1/200)^3 :=
      pow_le_pow_left₀ (le_of_lt hw0) hwub 3
    nlinarith
  have hsinw1 : Real.sin w ≤ 1 := Real.sin_le_one w
  have hcosφ1 : Real.cos φ ≤ 1 := Real.cos_le_one φ
  have hx0 : 0 ≤ Real.cos φ * Real.sin w := by nlinarith
  have hx1 : Real.cos φ * Real.sin w ≤ 1 := by nlinarith
  have hzero : Real.sin ((φ - φ)/2) = 0 := by
    rw [sub_self]
    norm_num
  have hsq : Real.sin ((φ - φ)/2)^2 +
      Real.cos φ * Real.cos φ * Real.sin w^2 =
      (Real.cos φ * Real.sin w)^2 := by
    rw [hzero]
    ring
  rw [hsq, Real.sqrt_sq hx0]
  have harc := le_arcsin_self (Real.cos φ * Real.sin w) hx0 hx1
  nlinarith

/-- Claim C5: in scenario 2 the reconciliation picks Google as best
provider with Google's coordinates and status `mismatch`, the
source↔Google distance being beyond the 5000 m suspicious threshold. -/
theorem scenario2_mismatch :
    (reconcileRecord defaultThresholds scenario2Row).status = "mismatch" ∧
    (reconcileRecord defaultThresholds scenario2Row).best_provider =
      some "google" ∧
    (reconcileRecord defaultThresholds scenario2Row).best_lon = some (128/5) ∧
    (reconcileRecord defaultThresholds scenario2Row).best_lat = some (421/10) ∧
    ∃ d, (reconcileRecord defaultThresholds scenario2Row).dist_src_g_m =
      some d ∧ 5000 < d := by
  have hgt := scenario2_distance_gt
  have hdist : distSrcG scenario2Row =
      some (haversineCore (421/10) (501/20) (421/10) (128/5)) := by
    unfold distSrcG scenario2Row
    norm_num [qTruthy, haversine_distance]
  have hdistnom : distSrcNom scenario2Row = none := by
    unfold distSrcNom scenario2Row
    norm_num [qTruthy]
  have h1000 : ¬(haversineCore (421/10) (501/20) (421/10) (128/5) ≤ 1000) := by
    linarith
  have hdec : reconcileDecision defaultThresholds scenario2Row =
      (some "google", some (128/5), some (421/10), "mismatch") := by
    rw [reconcileDecision]
    simp only [hdist, hdistnom]
    norm_num [scenario2Row, defaultThresholds, strTruthy,
      normalize_settlement_name, hgt, h1000]
    exact fun h => absurd h (by simp)
  refine ⟨?_, ?_, ?_, ?_,
    ⟨haversineCore (421/10) (501/20) (421/10) (128/5), ?_, hgt⟩⟩ <;>
    simp [reconcileRecord, hdec, hdist]
